import Mathlib

/-!
Verification of `hot-lib-reloader-macro/src/hot_module/module_body.rs`.

This file shallowly embeds the `HotModule` struct, its `syn::parse::Parse`
implementation, and its `quote::ToTokens` implementation.  Collaborators
whose sources live outside the verified file
(`read_unmangled_functions_from_file` in `util.rs`,
`generate_lib_loader_items` in `code_gen.rs`) are taken as explicit function
parameters, so every theorem holds for every behaviour of those
collaborators; `gen_hot_module_function_for` (Function Lowering) is modelled
from the spec.  The `eprintln!` diagnostic stream is made explicit: parsing
returns the list of warning lines it printed, in order.
-/

/-- Source spans (`proc_macro2::Span`), kept as opaque positions. -/
abbrev Span := Nat

/-- Parse errors (`syn::Error`), carried by their message. -/
abbrev ParseErr := String

/-- `syn::Ident`, by its text. -/
abbrev Ident := String

/-- `syn::LitStr`, by its string value. -/
abbrev LitStr := String

/-- `syn::Visibility`. -/
inductive Visibility
  | Inherited
  | Public
  | Restricted (path : String)
  deriving DecidableEq, Repr

/-- `syn::SynPath`: a leading-colon flag and the segment names. -/
structure SynPath where
  leading_colon : Bool
  segments : List String
  deriving DecidableEq, Repr

/-- `syn::SynPath::is_ident`: the path is the given lone identifier iff it has
no leading colon and exactly one segment equal to it. -/
def SynPath.is_ident (p : SynPath) (s : String) : Bool :=
  !p.leading_colon && p.segments == [s]

/-- An attribute (`syn::Attribute`), by its path. -/
structure Attr where
  path : SynPath
  deriving DecidableEq, Repr

/-- A function signature (`syn::Signature`): name, named-and-typed
parameters, return type. -/
structure Sig where
  name : String
  params : List (String × String)
  ret : String
  deriving DecidableEq, Repr

/-- `syn::ForeignItemFn`: a bodyless function declaration, plus its span. -/
structure ForeignItemFn where
  attrs : List Attr
  vis : Visibility
  sig : Sig
  span : Span
  deriving DecidableEq, Repr

/-- `syn::ForeignItem`: an item inside a foreign block, either a function
declaration or anything else (opaque). -/
inductive ForeignItem
  | fnDecl (f : ForeignItemFn)
  | other (tag : Nat)
  deriving DecidableEq, Repr

/-- A function body: either user-written source text or the generated proxy
body that forwards the call through the loader scaffolding under the
function's exported name. -/
inductive FnBody
  | user (code : String)
  | proxy (name : String) (span : Span)
  deriving DecidableEq, Repr

/-- `syn::ItemFn`: attributes, visibility, signature, span and body. -/
structure ItemFnData where
  attrs : List Attr
  vis : Visibility
  sig : Sig
  span : Span
  body : FnBody
  deriving DecidableEq, Repr

deriving instance DecidableEq for Except

/-- `syn::ItemMacro`: the invocation path and the argument tokens.  The only
observation the implementation makes of the tokens is
`syn::parse::<LitStr>(tokens)`, so the token stream is embedded by the
result of that observation. -/
structure ItemMacData where
  path : SynPath
  tokens : Except ParseErr LitStr
  deriving DecidableEq, Repr

/-- `syn::ItemForeignMod`: its attributes and its items. -/
structure ForeignModData where
  attrs : List Attr
  items : List ForeignItem
  deriving DecidableEq, Repr

/-- `syn::Item`, restricted to the shapes the parser distinguishes; every
other item kind is opaque. -/
inductive Item
  | mac (m : ItemMacData)
  | fnDef (f : ItemFnData)
  | foreignMod (fm : ForeignModData)
  | other (tag : Nat)
  deriving DecidableEq, Repr

/-- Modelled from the spec: `HotModuleAttribute` (the Declaration Source),
declared in the `hot_module` parent module which is not under the verified
sources; two configuration keys, the library logical name and the library
search directory. -/
structure HotModuleAttribute where
  lib_name : String
  lib_dir : Option String
  deriving DecidableEq, Repr

/-- The `HotModule` struct: visibility, identifier, parsed items, and the
optional Declaration Source. -/
structure HotModule where
  vis : Visibility
  ident : Ident
  items : List Item
  attributes : Option HotModuleAttribute
  deriving DecidableEq, Repr

/-- Modelled from the spec: `gen_hot_module_function_for` (Function
Lowering, spec section 4.2), whose source `code_gen.rs` is outside the
verified file.  From one canonical signature and a span it synthesizes
exactly one proxy function with the identical name, parameters, return type
and visibility, whose body forwards through the loader scaffolding under
the exported name; pure and deterministic. -/
def gen_hot_module_function_for (f : ForeignItemFn) (span : Span) : ItemFnData :=
  { attrs := [], vis := f.vis, sig := f.sig, span := span,
    body := FnBody.proxy f.sig.name span }

/-- The signature extractor `read_unmangled_functions_from_file` (declared
in `util.rs`, outside the verified file) as a collaborator parameter: from
a path, an ordered sequence of (signature, span) pairs, or a failure. -/
abbrev Extractor := LitStr → Except ParseErr (List (ForeignItemFn × Span))

/-- The fixed warning text printed for unexpected items inside a
tagged foreign block. -/
def warnMsg : String :=
  "[warn] hot_functions extern block includes unexpected items"

/-- The inner loop over a tagged foreign block (`for item in
foreign_mod.items`): each function declaration is lowered and appended in
order; every other item is skipped, printing one warning. -/
def processForeignItems : List ForeignItem → List Item × List String
  | [] => ([], [])
  | ForeignItem.fnDecl f :: rest =>
    let r := processForeignItems rest
    (Item.fnDef (gen_hot_module_function_for f f.span) :: r.1, r.2)
  | ForeignItem.other _ :: rest =>
    let r := processForeignItems rest
    (r.1, warnMsg :: r.2)

/-- One iteration of the item loop: the `match item` classification in
`Parse for HotModule`, returning the items appended to the module and the
warnings printed for this item. -/
def processItem (ext : Extractor) (item : Item) :
    Except ParseErr (List Item × List String) :=
  match item with
  | Item.mac m =>
    if m.path.is_ident "hot_functions_from_file" then do
      let file_name ← m.tokens
      let functions ← ext file_name
      pure (functions.map (fun fs => Item.fnDef (gen_hot_module_function_for fs.1 fs.2)), [])
    else pure ([item], [])
  | Item.fnDef func =>
    if func.attrs.any (fun a => a.path.is_ident "hot_function") then
      let span := func.span
      let f : ForeignItemFn :=
        { attrs := [], vis := func.vis, sig := func.sig, span := func.span }
      pure ([Item.fnDef (gen_hot_module_function_for f span)], [])
    else pure ([item], [])
  | Item.foreignMod fm =>
    if fm.attrs.any (fun a => a.path.is_ident "hot_functions") then
      pure (processForeignItems fm.items)
    else pure ([item], [])
  | i => pure ([i], [])

/-- The raw token stream of one invocation, embedded by the results of the
successive `syn` parse calls the implementation performs on it: the leading
visibility, the module keyword, the identifier, the braced block, and the
sequence of item parses inside the braces. -/
structure RawInput where
  visTok : Except ParseErr Visibility
  modTok : Except ParseErr Unit
  identTok : Except ParseErr Ident
  braceTok : Except ParseErr Unit
  bodyItems : List (Except ParseErr Item)
  deriving Repr

/-- The item loop (`while !module_body_stream.is_empty()`), threading the
accumulated items and warnings. -/
def parseItems (ext : Extractor) :
    List (Except ParseErr Item) → List Item → List String →
    Except ParseErr (List Item × List String)
  | [], acc, warns => pure (acc, warns)
  | r :: rest, acc, warns => do
    let item ← r
    let (newItems, newWarns) ← processItem ext item
    parseItems ext rest (acc ++ newItems) (warns ++ newWarns)

/-- `impl syn::parse::Parse for HotModule`: optional visibility
(`unwrap_or(Visibility::Inherited)`), then the module keyword, the
identifier, the braced body, then the item loop; on success the
`attributes` field is `None`. -/
def HotModule.parse (ext : Extractor) (input : RawInput) :
    Except ParseErr (HotModule × List String) := do
  let vis := match input.visTok with
    | Except.ok v => v
    | Except.error _ => Visibility.Inherited
  let _ ← input.modTok
  let ident ← input.identTok
  let _ ← input.braceTok
  let (items, warns) ← parseItems ext input.bodyItems [] []
  pure ({ vis := vis, ident := ident, items := items, attributes := none }, warns)

/-- The loader scaffolding produced by `generate_lib_loader_items`
(in `code_gen.rs`, outside the verified file); kept opaque. -/
structure LoaderScaffolding where
  tag : Nat
  deriving DecidableEq, Repr

/-- `generate_lib_loader_items` as a collaborator parameter: from the
library directory, the library name and a span, the scaffolding or an
error. -/
abbrev GenLoader := Option String → String → Span → Except String LoaderScaffolding

/-- One item of the emitted module body: either one of the parsed and
lowered body items, or the loader scaffolding block. -/
inductive OutputItem
  | item (i : Item)
  | scaffold (s : LoaderScaffolding)
  deriving DecidableEq, Repr

/-- The emitted module definition: visibility, identifier, and the body in
emission order. -/
structure ModuleDef where
  vis : Visibility
  ident : Ident
  body : List OutputItem
  deriving DecidableEq, Repr

/-- A fatal abort during code generation: `panic!` or `.expect`. -/
inductive FatalErr
  | panicked (msg : String)
  | expectFailed (msg : String)
  deriving DecidableEq, Repr

/-- `impl quote::ToTokens for HotModule`: panics with a fixed message when
`attributes` is `None`; otherwise generates the loader scaffolding (fatal
on failure) and emits the module with the original visibility and
identifier, the items first and the scaffolding after them. -/
def HotModule.to_tokens (gen : GenLoader) (m : HotModule) (span : Span) :
    Except FatalErr ModuleDef :=
  match m.attributes with
  | none => Except.error (FatalErr.panicked "Expected to have macro attributes")
  | some a =>
    match gen a.lib_dir a.lib_name span with
    | Except.error _ =>
      Except.error (FatalErr.expectFailed "error generating hot lib loader helpers")
    | Except.ok lib_loader =>
      Except.ok
        { vis := m.vis, ident := m.ident,
          body := m.items.map OutputItem.item ++ [OutputItem.scaffold lib_loader] }

/-- The file-import guard of the first `match` arm. -/
def Item.isFileImport : Item → Bool
  | Item.mac m => m.path.is_ident "hot_functions_from_file"
  | _ => false

/-- The inline-tag guard of the second `match` arm. -/
def Item.isInlineTagged : Item → Bool
  | Item.fnDef f => f.attrs.any (fun a => a.path.is_ident "hot_function")
  | _ => false

/-- The block-tag guard of the third `match` arm. -/
def Item.isBlockTagged : Item → Bool
  | Item.foreignMod fm => fm.attrs.any (fun a => a.path.is_ident "hot_functions")
  | _ => false

/-- The function declaration carried by a foreign item, when it is one. -/
def ForeignItem.fnDecl? : ForeignItem → Option ForeignItemFn
  | ForeignItem.fnDecl f => some f
  | ForeignItem.other _ => none

/-- Parsing one raw body item and classifying it, as one step. -/
def expandOne (ext : Extractor) (r : Except ParseErr Item) :
    Except ParseErr (List Item × List String) := do
  processItem ext (← r)

/-- Declarative form of the item loop: the per-item expansions, concatenated
in input encounter order (each expansion inlined at the point of its
item). -/
def expandAll (ext : Extractor) :
    List (Except ParseErr Item) → Except ParseErr (List Item × List String)
  | [] => pure ([], [])
  | r :: rest => do
    let p ← expandOne ext r
    let q ← expandAll ext rest
    pure (p.1 ++ q.1, p.2 ++ q.2)

theorem except_bind_ok (a : α) (f : α → Except ε β) :
    (Except.ok a >>= f) = f a := rfl

theorem except_bind_error (e : ε) (f : α → Except ε β) :
    ((Except.error e : Except ε α) >>= f) = Except.error e := rfl

theorem except_map_ok (f : α → β) (a : α) :
    Except.map f (Except.ok a : Except ε α) = Except.ok (f a) := rfl

theorem except_map_error (f : α → β) (e : ε) :
    Except.map f (Except.error e : Except ε α) = Except.error e := rfl

theorem except_pure (a : α) : (pure a : Except ε α) = Except.ok a := rfl

/-- The accumulator of the item loop only prepends: running the loop with
accumulated items and warnings equals running it empty and prepending. -/
theorem parseItems_eq_expandAll (ext : Extractor) :
    ∀ (rs : List (Except ParseErr Item)) (acc : List Item) (warns : List String),
      parseItems ext rs acc warns =
        Except.map (fun p => (acc ++ p.1, warns ++ p.2)) (expandAll ext rs)
  | [], acc, warns => by
    simp [parseItems, expandAll, except_map_ok, except_pure]
  | r :: rest, acc, warns => by
    cases r with
    | error e =>
      simp [parseItems, expandAll, expandOne, except_bind_error, except_map_error]
    | ok it =>
      cases hp : processItem ext it with
      | error e =>
        simp [parseItems, expandAll, expandOne, hp, except_bind_ok,
          except_bind_error, except_map_error]
      | ok p =>
        have ih := parseItems_eq_expandAll ext rest
        cases hq : expandAll ext rest with
        | error e =>
          simp [parseItems, expandAll, expandOne, hp, hq, ih, except_bind_ok,
            except_bind_error, except_map_error, except_pure]
        | ok q =>
          simp [parseItems, expandAll, expandOne, hp, hq, ih, except_bind_ok,
            except_map_ok, except_pure, List.append_assoc]

/-- The declarative loop splits over list concatenation. -/
theorem expandAll_append (ext : Extractor) :
    ∀ (l₁ l₂ : List (Except ParseErr Item)),
      expandAll ext (l₁ ++ l₂) = do
        let p ← expandAll ext l₁
        let q ← expandAll ext l₂
        pure (p.1 ++ q.1, p.2 ++ q.2)
  | [], l₂ => by
    cases h : expandAll ext l₂ with
    | error e => simp [expandAll, h, except_bind_ok, except_bind_error, except_pure]
    | ok q => simp [expandAll, h, except_bind_ok, except_pure]
  | r :: rest, l₂ => by
    have ih := expandAll_append ext rest l₂
    cases hr : expandOne ext r with
    | error e => simp [expandAll, hr, except_bind_error]
    | ok p =>
      cases h1 : expandAll ext rest with
      | error e =>
        simp [expandAll, hr, h1, ih, except_bind_ok, except_bind_error]
      | ok q =>
        cases h2 : expandAll ext l₂ with
        | error e =>
          simp [expandAll, hr, h1, h2, ih, except_bind_ok, except_bind_error,
            except_pure]
        | ok s =>
          simp [expandAll, hr, h1, h2, ih, except_bind_ok, except_pure,
            List.append_assoc]

/-- Inversion of a successful parse: every header token parsed, the items
are the in-order concatenation of the per-item expansions, the attributes
are absent, and the visibility is the parsed one or `Inherited`. -/
theorem hotModule_parse_ok_elim (ext : Extractor) (input : RawInput)
    (m : HotModule) (w : List String)
    (h : HotModule.parse ext input = Except.ok (m, w)) :
    input.modTok = Except.ok () ∧
    input.identTok = Except.ok m.ident ∧
    input.braceTok = Except.ok () ∧
    expandAll ext input.bodyItems = Except.ok (m.items, w) ∧
    m.attributes = none ∧
    m.vis = (match input.visTok with
      | Except.ok v => v
      | Except.error _ => Visibility.Inherited) := by
  simp only [HotModule.parse] at h
  cases hmt : input.modTok with
  | error e => rw [hmt] at h; simp [except_bind_error] at h
  | ok u =>
    cases u
    rw [hmt] at h
    rw [except_bind_ok] at h
    cases hit : input.identTok with
    | error e => rw [hit] at h; simp [except_bind_error] at h
    | ok id =>
      rw [hit] at h
      rw [except_bind_ok] at h
      cases hbt : input.braceTok with
      | error e => rw [hbt] at h; simp [except_bind_error] at h
      | ok u2 =>
        cases u2
        rw [hbt] at h
        rw [except_bind_ok] at h
        rw [parseItems_eq_expandAll] at h
        cases hx : expandAll ext input.bodyItems with
        | error e => rw [hx] at h; simp [except_map_error, except_bind_error] at h
        | ok p =>
          obtain ⟨items, warns⟩ := p
          rw [hx] at h
          simp only [except_map_ok, except_bind_ok, List.nil_append,
            except_pure, Except.ok.injEq, Prod.mk.injEq] at h
          obtain ⟨hm, hw⟩ := h
          subst hm
          subst hw
          exact ⟨rfl, rfl, rfl, rfl, rfl, rfl⟩

/-- The foreign-block loop, in closed form: the lowered declarations in
order, and one warning per non-declaration item. -/
theorem processForeignItems_eq :
    ∀ l : List ForeignItem,
      processForeignItems l =
        ((l.filterMap ForeignItem.fnDecl?).map
            (fun f => Item.fnDef (gen_hot_module_function_for f f.span)),
         List.replicate (l.countP fun i => (ForeignItem.fnDecl? i).isNone) warnMsg)
  | [] => by simp [processForeignItems]
  | ForeignItem.fnDecl f :: rest => by
    have ih := processForeignItems_eq rest
    simp [processForeignItems, ih, ForeignItem.fnDecl?, List.filterMap_cons,
      List.countP_cons]
  | ForeignItem.other t :: rest => by
    have ih := processForeignItems_eq rest
    simp [processForeignItems, ih, ForeignItem.fnDecl?, List.filterMap_cons,
      List.countP_cons, List.replicate_succ]

/-- C1: when the Declaration Source (`attributes`) is absent, code
generation fails fatally with the fixed panic message and emits no module;
and every module it does emit ends with the loader scaffolding. -/
theorem c1_to_tokens_requires_attributes :
    (∀ (gen : GenLoader) (m : HotModule) (span : Span),
        m.attributes = none →
        HotModule.to_tokens gen m span =
          Except.error (FatalErr.panicked "Expected to have macro attributes")) ∧
    (∀ (gen : GenLoader) (m : HotModule) (span : Span) (d : ModuleDef),
        HotModule.to_tokens gen m span = Except.ok d →
        ∃ s, d.body.getLast? = some (OutputItem.scaffold s)) := by
  constructor
  · intro gen m span h
    simp [HotModule.to_tokens, h]
  · intro gen m span d h
    cases ha : m.attributes with
    | none =>
      rw [HotModule.to_tokens] at h
      rw [ha] at h
      simp at h
    | some a =>
      rw [HotModule.to_tokens] at h
      rw [ha] at h
      dsimp only at h
      cases hg : gen a.lib_dir a.lib_name span with
      | error e => rw [hg] at h; simp at h
      | ok s =>
        rw [hg] at h
        dsimp only at h
        simp only [Except.ok.injEq] at h
        subst h
        exact ⟨s, by simp⟩

/-- C1 witness: a concrete module without attributes panics with the fixed
message. -/
theorem c1_to_tokens_requires_attributes_witness :
    HotModule.to_tokens (fun _ _ _ => Except.ok { tag := 0 })
      { vis := Visibility.Inherited, ident := "m", items := [],
        attributes := none } 0 =
      Except.error (FatalErr.panicked "Expected to have macro attributes") :=
  c1_to_tokens_requires_attributes.1 (fun _ _ _ => Except.ok { tag := 0 })
    { vis := Visibility.Inherited, ident := "m", items := [],
      attributes := none } 0 rfl

/-- C9: parsing never attaches the Declaration Source: after every
successful parse the `attributes` field is `none`. -/
theorem c9_parse_leaves_attributes_none (ext : Extractor) (input : RawInput)
    (m : HotModule) (w : List String)
    (h : HotModule.parse ext input = Except.ok (m, w)) :
    m.attributes = none :=
  (hotModule_parse_ok_elim ext input m w h).2.2.2.2.1

/-- C9 witness: a concrete successful parse, with absent attributes. -/
theorem c9_parse_leaves_attributes_none_witness :
    ({ vis := Visibility.Inherited, ident := "m", items := [],
       attributes := none } : HotModule).attributes = none :=
  c9_parse_leaves_attributes_none (fun _ => Except.ok [])
    { visTok := Except.ok Visibility.Inherited, modTok := Except.ok (),
      identTok := Except.ok "m", braceTok := Except.ok (), bodyItems := [] }
    { vis := Visibility.Inherited, ident := "m", items := [],
      attributes := none }
    [] rfl

/-- C7: an item matching none of the three recognition markers is appended
unchanged, with no error and no diagnostic. -/
theorem c7_unmarked_items_pass_through (ext : Extractor) (item : Item)
    (h1 : item.isFileImport = false) (h2 : item.isInlineTagged = false)
    (h3 : item.isBlockTagged = false) :
    processItem ext item = Except.ok ([item], []) := by
  cases item with
  | mac m =>
    simp only [Item.isFileImport] at h1
    simp [processItem, h1, except_pure]
  | fnDef f =>
    simp only [Item.isInlineTagged] at h2
    simp [processItem, h2, except_pure]
  | foreignMod fm =>
    simp only [Item.isBlockTagged] at h3
    simp [processItem, h3, except_pure]
  | other t => simp [processItem, except_pure]

/-- C7 witness: a concrete plain item passes through untouched. -/
theorem c7_unmarked_items_pass_through_witness :
    processItem (fun _ => Except.ok []) (Item.other 7) =
      Except.ok ([Item.other 7], []) :=
  c7_unmarked_items_pass_through (fun _ => Except.ok []) (Item.other 7)
    rfl rfl rfl

/-- C3: an inline-tagged function is replaced by exactly one proxy obtained
by Function Lowering from its signature: the proxy keeps the signature,
visibility and span, carries no attributes, gets the generated forwarding
body, and the result does not depend on the original body. -/
theorem c3_inline_tagged_lowering (ext : Extractor) (func : ItemFnData)
    (h : func.attrs.any (fun a => a.path.is_ident "hot_function") = true) :
    ∃ p : ItemFnData,
      processItem ext (Item.fnDef func) = Except.ok ([Item.fnDef p], []) ∧
      p = gen_hot_module_function_for
            { attrs := [], vis := func.vis, sig := func.sig, span := func.span }
            func.span ∧
      p.sig = func.sig ∧ p.vis = func.vis ∧ p.attrs = [] ∧
      p.span = func.span ∧
      p.body = FnBody.proxy func.sig.name func.span ∧
      (∀ b, processItem ext (Item.fnDef { func with body := b }) =
          Except.ok ([Item.fnDef p], [])) := by
  refine ⟨_, ?_, rfl, rfl, rfl, rfl, rfl, rfl, ?_⟩
  · simp [processItem, h, except_pure]
  · intro b
    simp [processItem, h, except_pure]

/-- C3 witness: a concrete tagged function with a user body is lowered to
the proxy built from its signature alone. -/
theorem c3_inline_tagged_lowering_witness :
    processItem (fun _ => Except.ok [])
        (Item.fnDef
          { attrs := [{ path := { leading_colon := false,
                                  segments := ["hot_function"] } }],
            vis := Visibility.Public,
            sig := { name := "do_stuff", params := [("arg", "&str")],
                     ret := "u32" },
            span := 9, body := FnBody.user "original" }) =
      Except.ok
        ([Item.fnDef
            (gen_hot_module_function_for
              { attrs := [], vis := Visibility.Public,
                sig := { name := "do_stuff", params := [("arg", "&str")],
                         ret := "u32" },
                span := 9 } 9)], []) := by
  obtain ⟨p, h1, h2, -, -, -, -, -, -⟩ :=
    c3_inline_tagged_lowering (fun _ => Except.ok [])
      { attrs := [{ path := { leading_colon := false,
                              segments := ["hot_function"] } }],
        vis := Visibility.Public,
        sig := { name := "do_stuff", params := [("arg", "&str")],
                 ret := "u32" },
        span := 9, body := FnBody.user "original" } rfl
  rw [h1, h2]

/-- C10: the file-import directive is recognized only for the lone
unqualified identifier: any qualified path ending in the name is not an
exact match and the invocation passes through unchanged. -/
theorem c10_qualified_path_not_recognized (ext : Extractor) (lc : Bool)
    (pre : List String) (toks : Except ParseErr LitStr) (hpre : pre ≠ []) :
    SynPath.is_ident
        { leading_colon := lc, segments := pre ++ ["hot_functions_from_file"] }
        "hot_functions_from_file" = false ∧
    processItem ext
        (Item.mac
          { path := { leading_colon := lc,
                      segments := pre ++ ["hot_functions_from_file"] },
            tokens := toks }) =
      Except.ok
        ([Item.mac
            { path := { leading_colon := lc,
                        segments := pre ++ ["hot_functions_from_file"] },
              tokens := toks }], []) := by
  have hne : pre ++ ["hot_functions_from_file"] ≠ ["hot_functions_from_file"] := by
    cases pre with
    | nil => exact absurd rfl hpre
    | cons a as => simp
  have hid : SynPath.is_ident
      { leading_colon := lc, segments := pre ++ ["hot_functions_from_file"] }
      "hot_functions_from_file" = false := by
    simp [SynPath.is_ident, hne]
  exact ⟨hid, by simp [processItem, hid, except_pure]⟩

/-- C10 witness: a module-qualified invocation of the file-import name is
passed through as a plain item. -/
theorem c10_qualified_path_not_recognized_witness :
    SynPath.is_ident
        { leading_colon := false,
          segments := ["some_mod", "hot_functions_from_file"] }
        "hot_functions_from_file" = false ∧
    processItem (fun _ => Except.ok [])
        (Item.mac
          { path := { leading_colon := false,
                      segments := ["some_mod", "hot_functions_from_file"] },
            tokens := Except.ok "f.rs" }) =
      Except.ok
        ([Item.mac
            { path := { leading_colon := false,
                        segments := ["some_mod", "hot_functions_from_file"] },
              tokens := Except.ok "f.rs" }], []) :=
  c10_qualified_path_not_recognized (fun _ => Except.ok []) false
    ["some_mod"] (Except.ok "f.rs") (by simp)

/-- C4: a block-tagged group with exactly one non-signature item yields a
proxy for every signature in listed order, skips the invalid item, records
exactly one warning, and does not fail. -/
theorem c4_block_with_one_invalid_item (ext : Extractor) (fm : ForeignModData)
    (hmark : fm.attrs.any (fun a => a.path.is_ident "hot_functions") = true)
    (hone : (fm.items.countP fun i => (ForeignItem.fnDecl? i).isNone) = 1) :
    processItem ext (Item.foreignMod fm) =
      Except.ok
        ((fm.items.filterMap ForeignItem.fnDecl?).map
            (fun f => Item.fnDef (gen_hot_module_function_for f f.span)),
         [warnMsg]) := by
  simp [processItem, hmark, processForeignItems_eq, hone, except_pure]

/-- C4 witness: one unexpected item between two signatures gives both
proxies and exactly one warning. -/
theorem c4_block_with_one_invalid_item_witness :
    processItem (fun _ => Except.ok [])
        (Item.foreignMod
          { attrs := [{ path := { leading_colon := false,
                                  segments := ["hot_functions"] } }],
            items := [ForeignItem.fnDecl
                        { attrs := [], vis := Visibility.Public,
                          sig := { name := "a", params := [("x", "i32")],
                                   ret := "i32" }, span := 1 },
                      ForeignItem.other 0,
                      ForeignItem.fnDecl
                        { attrs := [], vis := Visibility.Public,
                          sig := { name := "b", params := [], ret := "bool" },
                          span := 2 }] }) =
      Except.ok
        ([Item.fnDef
            { attrs := [], vis := Visibility.Public,
              sig := { name := "a", params := [("x", "i32")], ret := "i32" },
              span := 1, body := FnBody.proxy "a" 1 },
          Item.fnDef
            { attrs := [], vis := Visibility.Public,
              sig := { name := "b", params := [], ret := "bool" },
              span := 2, body := FnBody.proxy "b" 2 }],
         [warnMsg]) :=
  c4_block_with_one_invalid_item (fun _ => Except.ok [])
    { attrs := [{ path := { leading_colon := false,
                            segments := ["hot_functions"] } }],
      items := [ForeignItem.fnDecl
                  { attrs := [], vis := Visibility.Public,
                    sig := { name := "a", params := [("x", "i32")],
                             ret := "i32" }, span := 1 },
                ForeignItem.other 0,
                ForeignItem.fnDecl
                  { attrs := [], vis := Visibility.Public,
                    sig := { name := "b", params := [], ret := "bool" },
                    span := 2 }] }
    rfl rfl

/-- C8: every declaration form is lowered one-to-one: each signature
extracted by a file-import directive, each inline-tagged function, and each
signature of a block-tagged group yields exactly one proxy, in order, with
duplicate names neither deduplicated nor merged; and at the module level a
same-named pair declared through two different forms still yields two
separate proxies in the parsed item list. -/
theorem c8_signatures_one_to_one_no_dedup :
    (∀ (ext : Extractor) (m : ItemMacData) (file : LitStr)
        (fs : List (ForeignItemFn × Span)),
        m.path.is_ident "hot_functions_from_file" = true →
        m.tokens = Except.ok file →
        ext file = Except.ok fs →
        processItem ext (Item.mac m) =
          Except.ok
            (fs.map (fun p => Item.fnDef (gen_hot_module_function_for p.1 p.2)),
             [])) ∧
    (∀ (ext : Extractor) (func : ItemFnData),
        func.attrs.any (fun a => a.path.is_ident "hot_function") = true →
        processItem ext (Item.fnDef func) =
          Except.ok
            ([Item.fnDef
                (gen_hot_module_function_for
                  { attrs := [], vis := func.vis, sig := func.sig,
                    span := func.span } func.span)], [])) ∧
    (∀ (ext : Extractor) (fm : ForeignModData),
        fm.attrs.any (fun a => a.path.is_ident "hot_functions") = true →
        processItem ext (Item.foreignMod fm) =
          Except.ok
            ((fm.items.filterMap ForeignItem.fnDecl?).map
                (fun f => Item.fnDef (gen_hot_module_function_for f f.span)),
             List.replicate
               (fm.items.countP fun i => (ForeignItem.fnDecl? i).isNone)
               warnMsg)) ∧
    (∀ (ext : Extractor) (input : RawInput) (id : Ident)
        (func : ItemFnData) (fm : ForeignModData) (g : ForeignItemFn),
        input.modTok = Except.ok () → input.identTok = Except.ok id →
        input.braceTok = Except.ok () →
        input.bodyItems = [Except.ok (Item.fnDef func),
                           Except.ok (Item.foreignMod fm)] →
        func.attrs.any (fun a => a.path.is_ident "hot_function") = true →
        fm.attrs.any (fun a => a.path.is_ident "hot_functions") = true →
        fm.items = [ForeignItem.fnDecl g] →
        func.sig.name = g.sig.name →
        ∃ hm : HotModule,
          HotModule.parse ext input = Except.ok (hm, []) ∧
          hm.items =
            [Item.fnDef
               (gen_hot_module_function_for
                 { attrs := [], vis := func.vis, sig := func.sig,
                   span := func.span } func.span),
             Item.fnDef (gen_hot_module_function_for g g.span)]) := by
  refine ⟨?_, ?_, ?_, ?_⟩
  · intro ext m file fs hpath htok hext
    simp [processItem, hpath, htok, hext, except_bind_ok, except_pure]
  · intro ext func hfunc
    simp [processItem, hfunc, except_pure]
  · intro ext fm hmark
    simp [processItem, hmark, processForeignItems_eq, except_pure]
  · intro ext input id func fm g hm hi hb hbody hfunc hfm hitems hdup
    refine ⟨{ vis := match input.visTok with
                | Except.ok v => v
                | Except.error _ => Visibility.Inherited,
              ident := id,
              items := [Item.fnDef
                          (gen_hot_module_function_for
                            { attrs := [], vis := func.vis, sig := func.sig,
                              span := func.span } func.span),
                        Item.fnDef (gen_hot_module_function_for g g.span)],
              attributes := none }, ?_, rfl⟩
    simp only [HotModule.parse, hm, hi, hb, except_bind_ok]
    rw [hbody]
    simp only [List.any_eq_true] at hfunc hfm
    simp [parseItems, processItem, hfunc, hfm, hitems, processForeignItems,
      except_bind_ok, except_pure]

/-- C8 witness: the same name declared once inline-tagged and once in a
block-tagged group still yields two separate proxies in the parsed
module. -/
theorem c8_signatures_one_to_one_no_dedup_witness :
    ∃ hm : HotModule,
      HotModule.parse (fun _ => Except.ok [])
          { visTok := Except.ok Visibility.Inherited, modTok := Except.ok (),
            identTok := Except.ok "m", braceTok := Except.ok (),
            bodyItems := [Except.ok (Item.fnDef
                            { attrs := [{ path := { leading_colon := false,
                                                    segments := ["hot_function"] } }],
                              vis := Visibility.Public,
                              sig := { name := "dup", params := [],
                                       ret := "u32" },
                              span := 1, body := FnBody.user "old" }),
                          Except.ok (Item.foreignMod
                            { attrs := [{ path := { leading_colon := false,
                                                    segments := ["hot_functions"] } }],
                              items := [ForeignItem.fnDecl
                                          { attrs := [],
                                            vis := Visibility.Public,
                                            sig := { name := "dup",
                                                     params := [],
                                                     ret := "u32" },
                                            span := 2 }] })] } =
        Except.ok (hm, []) ∧
      hm.items =
        [Item.fnDef
           (gen_hot_module_function_for
             { attrs := [], vis := Visibility.Public,
               sig := { name := "dup", params := [], ret := "u32" },
               span := 1 } 1),
         Item.fnDef
           (gen_hot_module_function_for
             { attrs := [], vis := Visibility.Public,
               sig := { name := "dup", params := [], ret := "u32" },
               span := 2 } 2)] :=
  c8_signatures_one_to_one_no_dedup.2.2.2 (fun _ => Except.ok [])
    { visTok := Except.ok Visibility.Inherited, modTok := Except.ok (),
      identTok := Except.ok "m", braceTok := Except.ok (),
      bodyItems := [Except.ok (Item.fnDef
                      { attrs := [{ path := { leading_colon := false,
                                              segments := ["hot_function"] } }],
                        vis := Visibility.Public,
                        sig := { name := "dup", params := [], ret := "u32" },
                        span := 1, body := FnBody.user "old" }),
                    Except.ok (Item.foreignMod
                      { attrs := [{ path := { leading_colon := false,
                                              segments := ["hot_functions"] } }],
                        items := [ForeignItem.fnDecl
                                    { attrs := [], vis := Visibility.Public,
                                      sig := { name := "dup", params := [],
                                               ret := "u32" },
                                      span := 2 }] })] }
    "m"
    { attrs := [{ path := { leading_colon := false,
                            segments := ["hot_function"] } }],
      vis := Visibility.Public,
      sig := { name := "dup", params := [], ret := "u32" },
      span := 1, body := FnBody.user "old" }
    { attrs := [{ path := { leading_colon := false,
                            segments := ["hot_functions"] } }],
      items := [ForeignItem.fnDecl
                  { attrs := [], vis := Visibility.Public,
                    sig := { name := "dup", params := [], ret := "u32" },
                    span := 2 }] }
    { attrs := [], vis := Visibility.Public,
      sig := { name := "dup", params := [], ret := "u32" }, span := 2 }
    rfl rfl rfl rfl rfl rfl rfl rfl

/-- C2: the output item order equals the input encounter order with each
expansion inlined at the point of its item (`expandAll`), and the emitted
module carries the original visibility and identifier with the body items
first and the loader scaffolding after them. -/
theorem c2_output_order_and_assembly :
    (∀ (ext : Extractor) (input : RawInput) (m : HotModule) (w : List String),
        HotModule.parse ext input = Except.ok (m, w) →
        expandAll ext input.bodyItems = Except.ok (m.items, w)) ∧
    (∀ (gen : GenLoader) (m : HotModule) (span : Span) (d : ModuleDef),
        HotModule.to_tokens gen m span = Except.ok d →
        d.vis = m.vis ∧ d.ident = m.ident ∧
        ∃ s, d.body = m.items.map OutputItem.item ++ [OutputItem.scaffold s]) := by
  constructor
  · intro ext input m w h
    exact (hotModule_parse_ok_elim ext input m w h).2.2.2.1
  · intro gen m span d h
    rw [HotModule.to_tokens] at h
    cases ha : m.attributes with
    | none => rw [ha] at h; simp at h
    | some a =>
      rw [ha] at h
      dsimp only at h
      cases hg : gen a.lib_dir a.lib_name span with
      | error e => rw [hg] at h; simp at h
      | ok s =>
        rw [hg] at h
        dsimp only at h
        simp only [Except.ok.injEq] at h
        subst h
        exact ⟨rfl, rfl, s, rfl⟩

/-- C2 witness: a concrete parse whose items are a plain item followed by
the proxy expanded from a block-tagged group, in encounter order. -/
theorem c2_output_order_and_assembly_witness :
    expandAll (fun _ => Except.ok [])
        [Except.ok (Item.other 5),
         Except.ok (Item.foreignMod
           { attrs := [{ path := { leading_colon := false,
                                   segments := ["hot_functions"] } }],
             items := [ForeignItem.fnDecl
                         { attrs := [], vis := Visibility.Public,
                           sig := { name := "a", params := [("x", "i32")],
                                    ret := "i32" }, span := 3 }] })] =
      Except.ok
        ([Item.other 5,
          Item.fnDef
            { attrs := [], vis := Visibility.Public,
              sig := { name := "a", params := [("x", "i32")], ret := "i32" },
              span := 3, body := FnBody.proxy "a" 3 }], []) :=
  c2_output_order_and_assembly.1 (fun _ => Except.ok [])
    { visTok := Except.ok Visibility.Inherited, modTok := Except.ok (),
      identTok := Except.ok "m", braceTok := Except.ok (),
      bodyItems := [Except.ok (Item.other 5),
        Except.ok (Item.foreignMod
          { attrs := [{ path := { leading_colon := false,
                                  segments := ["hot_functions"] } }],
            items := [ForeignItem.fnDecl
                        { attrs := [], vis := Visibility.Public,
                          sig := { name := "a", params := [("x", "i32")],
                                   ret := "i32" }, span := 3 }] })] }
    { vis := Visibility.Inherited, ident := "m",
      items := [Item.other 5,
                Item.fnDef
                  { attrs := [], vis := Visibility.Public,
                    sig := { name := "a", params := [("x", "i32")],
                             ret := "i32" },
                    span := 3, body := FnBody.proxy "a" 3 }],
      attributes := none }
    [] rfl

/-- C5: a malformed or absent leading visibility is never fatal: parsing
behaves exactly as if the visibility were the inherited default, and any
successful parse records the inherited visibility. -/
theorem c5_malformed_visibility_not_fatal (ext : Extractor) (input : RawInput)
    (e : ParseErr) :
    HotModule.parse ext { input with visTok := Except.error e } =
      HotModule.parse ext { input with visTok := Except.ok Visibility.Inherited } ∧
    (∀ m w, HotModule.parse ext { input with visTok := Except.error e } =
        Except.ok (m, w) → m.vis = Visibility.Inherited) := by
  constructor
  · simp [HotModule.parse]
  · intro m w h
    have el := hotModule_parse_ok_elim _ _ _ _ h
    simpa using el.2.2.2.2.2

/-- C5 witness: a concrete input with a failed visibility parse still
parses, with inherited visibility. -/
theorem c5_malformed_visibility_not_fatal_witness :
    ({ vis := Visibility.Inherited, ident := "m", items := [],
       attributes := none } : HotModule).vis = Visibility.Inherited :=
  (c5_malformed_visibility_not_fatal (fun _ => Except.ok [])
      { visTok := Except.ok Visibility.Public, modTok := Except.ok (),
        identTok := Except.ok "m", braceTok := Except.ok (),
        bodyItems := [] } "bad").2
    { vis := Visibility.Inherited, ident := "m", items := [],
      attributes := none }
    [] rfl

/-- C6: a malformed module header (missing module keyword or identifier), a
missing brace block, a file-import argument that is not a string literal,
or an item that fails to parse, each aborts the whole parse with that
error, and the error is independent of every later item (processing
stops; no partial module is produced, the result being the error alone). -/
theorem c6_fatal_parse_errors :
    (∀ (ext : Extractor) (input : RawInput) (e : ParseErr),
        input.modTok = Except.error e →
        HotModule.parse ext input = Except.error e) ∧
    (∀ (ext : Extractor) (input : RawInput) (e : ParseErr),
        input.modTok = Except.ok () → input.identTok = Except.error e →
        HotModule.parse ext input = Except.error e) ∧
    (∀ (ext : Extractor) (input : RawInput) (id : Ident) (e : ParseErr),
        input.modTok = Except.ok () → input.identTok = Except.ok id →
        input.braceTok = Except.error e →
        HotModule.parse ext input = Except.error e) ∧
    (∀ (ext : Extractor) (m : ItemMacData) (e : ParseErr),
        m.path.is_ident "hot_functions_from_file" = true →
        m.tokens = Except.error e →
        processItem ext (Item.mac m) = Except.error e) ∧
    (∀ (ext : Extractor) (input : RawInput) (id : Ident)
        (pre post : List (Except ParseErr Item)) (r : Except ParseErr Item)
        (acc : List Item) (warns : List String) (e : ParseErr),
        input.modTok = Except.ok () → input.identTok = Except.ok id →
        input.braceTok = Except.ok () →
        input.bodyItems = pre ++ r :: post →
        parseItems ext pre [] [] = Except.ok (acc, warns) →
        expandOne ext r = Except.error e →
        HotModule.parse ext input = Except.error e) := by
  refine ⟨?_, ?_, ?_, ?_, ?_⟩
  · intro ext input e h
    simp only [HotModule.parse, h, except_bind_error]
  · intro ext input e hm h
    simp only [HotModule.parse, hm, h, except_bind_ok, except_bind_error]
  · intro ext input id e hm hi h
    simp only [HotModule.parse, hm, hi, h, except_bind_ok, except_bind_error]
  · intro ext m e hpath htok
    simp [processItem, hpath, htok, except_bind_error]
  · intro ext input id pre post r acc warns e hm hi hb hbody hpre hr
    simp only [HotModule.parse, hm, hi, hb, except_bind_ok]
    rw [hbody, parseItems_eq_expandAll, expandAll_append]
    cases hx : expandAll ext pre with
    | error e2 =>
      rw [parseItems_eq_expandAll, hx] at hpre
      simp [except_map_error] at hpre
    | ok p =>
      simp [hx, expandAll, hr, except_bind_ok, except_bind_error,
        except_map_error]

/-- C6 witness: after one successfully processed item, a failing item parse
aborts the whole expansion with that error, with further items present and
untouched. -/
theorem c6_fatal_parse_errors_witness :
    HotModule.parse (fun _ => Except.ok [])
        { visTok := Except.ok Visibility.Inherited, modTok := Except.ok (),
          identTok := Except.ok "m", braceTok := Except.ok (),
          bodyItems := [Except.ok (Item.other 1), Except.error "bad item",
                        Except.ok (Item.other 2)] } =
      Except.error "bad item" :=
  c6_fatal_parse_errors.2.2.2.2 (fun _ => Except.ok [])
    { visTok := Except.ok Visibility.Inherited, modTok := Except.ok (),
      identTok := Except.ok "m", braceTok := Except.ok (),
      bodyItems := [Except.ok (Item.other 1), Except.error "bad item",
                    Except.ok (Item.other 2)] }
    "m" [Except.ok (Item.other 1)] [Except.ok (Item.other 2)]
    (Except.error "bad item") [Item.other 1] [] "bad item"
    rfl rfl rfl rfl rfl rfl
